import Mathlib

/-!
Verification of the elasticsearch query builder (src/src/index.ts).

The builder class `QueryBuilder` owns one mutable `QueryObject`; every
mutator method pushes a clause onto `query.bool.should` / `query.bool.must`,
appends a sort criterion, or sets a scalar field, and returns the builder.
We embed the builder state as the record `QueryObject` and each method as a
state-passing function `QueryObject → args → QueryObject`; `build` returns
the state and `toString` serializes it as `JSON.stringify` does.
-/

/-- `SortDirection` from index.ts: the union type of the two literals
`'desc' | 'asc'`. -/
inductive SortDirection where
  | desc
  | asc
deriving Repr, DecidableEq

/-- One entry of the `sort` array: the single-key object
`{[attribute]: {order: direction}}` pushed by `sort` (index.ts lines 192–197). -/
structure SortEntry where
  attr : String
  order : SortDirection
deriving Repr, DecidableEq

/-- A clause object as pushed onto `should` / `must` by the mutators of
index.ts: one key naming the kind (`prefix`, `term`, `wildcard`, `match`)
with a single-key map from attribute name to value, or the nested
`{bool: {should: [...]}}` object built by `mustShouldMatch`.  The stored
value is recorded exactly as the source pushes it (so for wildcard clauses
it is the already-wrapped string). -/
inductive Clause where
  | prefixC (key value : String)
  | termC (key value : String)
  | wildcardC (key value : String)
  | matchC (key value : String)
  | boolShouldC (should : List Clause)
deriving Repr

/-- The `query.bool` object of `QueryObject` (index.ts lines 1–12):
`should` and `must` arrays plus the optional `minimum_should_match`. -/
structure BoolQuery where
  should : List Clause
  must : List Clause
  minimum_should_match : Option Int := none
deriving Repr

/-- The `query` field of `QueryObject`: an object with the single key
`bool`. -/
structure Query where
  bool : BoolQuery
deriving Repr

/-- The `QueryObject` interface of index.ts: `query.bool.{should,must,
minimum_should_match?}`, `sort`, and optional `size` and `from` (the
latter named `from_` here because `from` is a Lean keyword). -/
structure QueryObject where
  query : Query
  sort : List SortEntry
  size : Option Int := none
  from_ : Option Int := none
deriving Repr

/-- The default document built by the constructor when no query is
supplied: `{query: {bool: {should: [], must: []}}, sort: []}`
(index.ts lines 29–36). -/
def defaultQueryObject : QueryObject :=
  { query := { bool := { should := [], must := [] } }, sort := [] }

/-- The constructor `constructor(query?: QueryObject)`: stores the supplied
document as-is when given, otherwise the default document. -/
def construct : Option QueryObject → QueryObject
  | some q => q
  | none => defaultQueryObject

/-- `build()`: returns the current query object (index.ts lines 42–44). -/
def build (s : QueryObject) : QueryObject := s

/-- `shouldPrefix(key, value)`: pushes `{prefix: {[key]: value}}` onto
`query.bool.should` (index.ts lines 52–57). -/
def shouldPrefix (s : QueryObject) (key value : String) : QueryObject :=
  { s with query.bool.should := s.query.bool.should ++ [Clause.prefixC key value] }

/-- `shouldTerm(key, value)`: pushes `{term: {[key]: value}}` onto
`query.bool.should` (index.ts lines 65–70). -/
def shouldTerm (s : QueryObject) (key value : String) : QueryObject :=
  { s with query.bool.should := s.query.bool.should ++ [Clause.termC key value] }

/-- `shouldWildcard(key, value)`: pushes
`{wildcard: {[key]: '*' + value + '*'}}` onto `query.bool.should`
(index.ts lines 78–83). -/
def shouldWildcard (s : QueryObject) (key value : String) : QueryObject :=
  { s with query.bool.should :=
      s.query.bool.should ++ [Clause.wildcardC key ("*" ++ value ++ "*")] }

/-- `shouldMatch(key, value)`: pushes `{match: {[key]: value}}` onto
`query.bool.should` (index.ts lines 91–96). -/
def shouldMatch (s : QueryObject) (key value : String) : QueryObject :=
  { s with query.bool.should := s.query.bool.should ++ [Clause.matchC key value] }

/-- `mustWildcard(key, value)`: pushes
`{wildcard: {[key]: '*' + value + '*'}}` onto `query.bool.must`
(index.ts lines 104–109). -/
def mustWildcard (s : QueryObject) (key value : String) : QueryObject :=
  { s with query.bool.must :=
      s.query.bool.must ++ [Clause.wildcardC key ("*" ++ value ++ "*")] }

/-- `mustMatch(key, value)`: pushes `{match: {[key]: value}}` onto
`query.bool.must` (index.ts lines 117–122). -/
def mustMatch (s : QueryObject) (key value : String) : QueryObject :=
  { s with query.bool.must := s.query.bool.must ++ [Clause.matchC key value] }

/-- `mustShouldMatch(terms)`: builds the nested object
`{bool: {should: []}}`, pushes one `{match: {[term.key]: term.value}}` per
input pair onto its `should` (via `forEach`, so in input order), and pushes
the one nested object onto `query.bool.must` (index.ts lines 129–134). -/
def mustShouldMatch (s : QueryObject) (terms : List (String × String)) : QueryObject :=
  let shouldQuery := Clause.boolShouldC (terms.map fun t => Clause.matchC t.1 t.2)
  { s with query.bool.must := s.query.bool.must ++ [shouldQuery] }

/-- `mustTerm(key, value)`: pushes `{term: {[key]: value}}` onto
`query.bool.must` (index.ts lines 142–147). -/
def mustTerm (s : QueryObject) (key value : String) : QueryObject :=
  { s with query.bool.must := s.query.bool.must ++ [Clause.termC key value] }

/-- `ofType(type)`: pushes `{term: {type: type}}` — the literal attribute
name `type` — onto `query.bool.must` (index.ts lines 156–161). -/
def ofType (s : QueryObject) (type : String) : QueryObject :=
  { s with query.bool.must := s.query.bool.must ++ [Clause.termC "type" type] }

/-- `mustPrefix(key, value)`: pushes `{prefix: {[key]: value}}` onto
`query.bool.must` (index.ts lines 169–174). -/
def mustPrefix (s : QueryObject) (key value : String) : QueryObject :=
  { s with query.bool.must := s.query.bool.must ++ [Clause.prefixC key value] }

/-- `minimumShouldMatch(count)`: assigns
`query.bool.minimum_should_match = count` (index.ts lines 181–184). -/
def minimumShouldMatch (s : QueryObject) (count : Int) : QueryObject :=
  { s with query.bool.minimum_should_match := some count }

/-- `sort(attribute, direction = 'desc')`: pushes
`{[attribute]: {order: direction}}` onto `sort` (index.ts lines 192–197);
the direction defaults to `desc` when omitted. -/
def sort (s : QueryObject) (attr : String)
    (direction : SortDirection := SortDirection.desc) : QueryObject :=
  { s with sort := s.sort ++ [{ attr := attr, order := direction }] }

/-- `size(size = 20)`: assigns `queryObject.size = size`
(index.ts lines 204–207). -/
def size (s : QueryObject) (n : Int := 20) : QueryObject :=
  { s with size := some n }

/-- `from(from = 0)`: assigns `queryObject.from = from`
(index.ts lines 214–217); named `from_` because `from` is a Lean keyword. -/
def from_ (s : QueryObject) (n : Int := 0) : QueryObject :=
  { s with from_ := some n }

/-- Lowercase hex digit, as `JSON.stringify` renders `\u00XX` escapes. -/
def jsonHexDigit (n : Nat) : Char :=
  if n < 10 then Char.ofNat (48 + n) else Char.ofNat (87 + n)

/-- One character of a JSON string body, escaped exactly as
`JSON.stringify` escapes it: `"` and `\` get a backslash, the five named
control characters get their short escapes, other control characters get
`\u00XX`, and everything else passes through. -/
def jsonEscapeChar (c : Char) : String :=
  if c = '"' then "\\\""
  else if c = '\\' then "\\\\"
  else if c = '\x08' then "\\b"
  else if c = '\t' then "\\t"
  else if c = '\n' then "\\n"
  else if c = '\x0c' then "\\f"
  else if c = '\r' then "\\r"
  else if c.toNat < 32 then
    "\\u00" ++ String.mk [jsonHexDigit (c.toNat / 16), jsonHexDigit (c.toNat % 16)]
  else String.singleton c

/-- A JSON string literal: the escaped body between double quotes. -/
def jsonQuote (s : String) : String :=
  "\"" ++ String.join (s.data.map jsonEscapeChar) ++ "\""

/-- The two direction literals as serialized. -/
def SortDirection.toStr : SortDirection → String
  | SortDirection.desc => "desc"
  | SortDirection.asc => "asc"

mutual

/-- `JSON.stringify` of one clause object, with object keys in the order
the source inserts them. -/
def Clause.stringify : Clause → String
  | Clause.prefixC k v =>
      "\x7b\"prefix\":\x7b" ++ jsonQuote k ++ ":" ++ jsonQuote v ++ "\x7d\x7d"
  | Clause.termC k v =>
      "\x7b\"term\":\x7b" ++ jsonQuote k ++ ":" ++ jsonQuote v ++ "\x7d\x7d"
  | Clause.wildcardC k v =>
      "\x7b\"wildcard\":\x7b" ++ jsonQuote k ++ ":" ++ jsonQuote v ++ "\x7d\x7d"
  | Clause.matchC k v =>
      "\x7b\"match\":\x7b" ++ jsonQuote k ++ ":" ++ jsonQuote v ++ "\x7d\x7d"
  | Clause.boolShouldC cs =>
      "\x7b\"bool\":\x7b\"should\":[" ++ Clause.stringifyList cs ++ "]\x7d\x7d"

/-- The comma-separated serializations of a list of clauses (the body of a
JSON array). -/
def Clause.stringifyList : List Clause → String
  | [] => ""
  | [c] => Clause.stringify c
  | c :: c2 :: rest => Clause.stringify c ++ "," ++ Clause.stringifyList (c2 :: rest)

end

/-- `JSON.stringify` of one sort entry `{attribute: {order: direction}}`. -/
def SortEntry.stringify (e : SortEntry) : String :=
  "\x7b" ++ jsonQuote e.attr ++ ":\x7b\"order\":" ++ jsonQuote e.order.toStr ++ "\x7d\x7d"

/-- `JSON.stringify` of the whole query object, with keys in the insertion
order of the default document (`query.bool.should`, `query.bool.must`,
then the optional `minimum_should_match`, then `sort` and the optional
`size` and `from`); an optional field that was never set is absent. -/
def stringify (s : QueryObject) : String :=
  "\x7b\"query\":\x7b\"bool\":\x7b\"should\":["
    ++ Clause.stringifyList s.query.bool.should
    ++ "],\"must\":["
    ++ Clause.stringifyList s.query.bool.must
    ++ "]"
    ++ (match s.query.bool.minimum_should_match with
        | none => ""
        | some n => ",\"minimum_should_match\":" ++ toString n)
    ++ "\x7d\x7d,\"sort\":["
    ++ String.intercalate "," (s.sort.map SortEntry.stringify)
    ++ "]"
    ++ (match s.size with
        | none => ""
        | some n => ",\"size\":" ++ toString n)
    ++ (match s.from_ with
        | none => ""
        | some n => ",\"from\":" ++ toString n)
    ++ "\x7d"

/-- The `toString` method (index.ts lines 222–224):
`JSON.stringify(this.queryObject)`, computed from the state at call time. -/
def toStringQB (s : QueryObject) : String := stringify s

/-- The `query.bool` object as the JavaScript runtime sees it when the
document supplied to the constructor is malformed: each nested piece that
may be missing (`undefined`) is an `Option`. -/
structure RawBool where
  should : Option (List Clause)
  must : Option (List Clause)
  minimum_should_match : Option Int
deriving Repr

/-- The `query` object of a possibly malformed document: its `bool` key
may be missing. -/
structure RawQuery where
  bool : Option RawBool
deriving Repr

/-- A possibly malformed query document as the JavaScript runtime sees it:
every nested structure a mutator dereferences may be missing. -/
structure RawDoc where
  query : Option RawQuery
  sort : Option (List SortEntry)
  size : Option Int
  from_ : Option Int
deriving Repr

/-- The default document of the constructor, in the raw view: every
required nested structure present. -/
def defaultRawDoc : RawDoc :=
  let b : RawBool := { should := some [], must := some [], minimum_should_match := none }
  { query := some { bool := some b }, sort := some [], size := none, from_ := none }

/-- The constructor over raw documents (index.ts lines 29–36): a supplied
document is stored as-is — no property of it is read, so construction
never fails, whatever its shape. -/
def constructRaw : Option RawDoc → RawDoc
  | some d => d
  | none => defaultRawDoc

/-- `shouldPrefix` over a raw document: evaluates
`this.queryObject.query.bool.should.push(...)` step by step, failing with
the JavaScript `TypeError` at the first dereference of a missing
structure (index.ts lines 52–57). -/
def shouldPrefixRaw (d : RawDoc) (key value : String) : Except String RawDoc :=
  match d.query with
  | none => Except.error "TypeError: cannot read bool of undefined"
  | some q =>
    match q.bool with
    | none => Except.error "TypeError: cannot read should of undefined"
    | some b =>
      match b.should with
      | none => Except.error "TypeError: cannot read push of undefined"
      | some l =>
        let b2 : RawBool := { b with should := some (l ++ [Clause.prefixC key value]) }
        Except.ok { d with query := some { bool := some b2 } }

/-- Whether a raw document has the nested structure `query.bool.should`
that the `should*` mutators dereference. -/
def RawDoc.hasBoolShould (d : RawDoc) : Bool :=
  match d.query with
  | some q =>
    match q.bool with
    | some b => b.should.isSome
    | none => false
  | none => false

/-- Whether a mutator call over a raw document succeeded. -/
def isStructOk (e : Except String RawDoc) : Bool :=
  match e with
  | Except.ok _ => true
  | Except.error _ => false

/-- One mutator call of the builder, with its arguments: the alphabet of
call sequences.  `sort` carries its direction explicitly (a TypeScript
call that omits it passes `desc`, the default), and `from` is `fromCall`
because `from` is a Lean keyword. -/
inductive Call where
  | shouldPrefix (key value : String)
  | shouldTerm (key value : String)
  | shouldWildcard (key value : String)
  | shouldMatch (key value : String)
  | mustPrefix (key value : String)
  | mustTerm (key value : String)
  | mustWildcard (key value : String)
  | mustMatch (key value : String)
  | mustShouldMatch (terms : List (String × String))
  | ofType (type : String)
  | minimumShouldMatch (count : Int)
  | sort (attr : String) (direction : SortDirection)
  | size (n : Int)
  | fromCall (n : Int)
deriving Repr

/-- Dispatch one call to the method it names. -/
def applyCall (s : QueryObject) : Call → QueryObject
  | Call.shouldPrefix k v => shouldPrefix s k v
  | Call.shouldTerm k v => shouldTerm s k v
  | Call.shouldWildcard k v => shouldWildcard s k v
  | Call.shouldMatch k v => shouldMatch s k v
  | Call.mustPrefix k v => mustPrefix s k v
  | Call.mustTerm k v => mustTerm s k v
  | Call.mustWildcard k v => mustWildcard s k v
  | Call.mustMatch k v => mustMatch s k v
  | Call.mustShouldMatch ts => mustShouldMatch s ts
  | Call.ofType t => ofType s t
  | Call.minimumShouldMatch n => minimumShouldMatch s n
  | Call.sort a d => sort s a d
  | Call.size n => size s n
  | Call.fromCall n => from_ s n

/-- Run a sequence of calls left to right, as a method chain does. -/
def run (s : QueryObject) (calls : List Call) : QueryObject :=
  calls.foldl applyCall s

/-- The calls that push one clause onto `query.bool.should`. -/
def Call.countsShould : Call → Bool
  | Call.shouldPrefix _ _ => true
  | Call.shouldTerm _ _ => true
  | Call.shouldWildcard _ _ => true
  | Call.shouldMatch _ _ => true
  | _ => false

/-- The calls that push one clause onto `query.bool.must`
(`must*`, `ofType` and `mustShouldMatch`). -/
def Call.countsMust : Call → Bool
  | Call.mustPrefix _ _ => true
  | Call.mustTerm _ _ => true
  | Call.mustWildcard _ _ => true
  | Call.mustMatch _ _ => true
  | Call.mustShouldMatch _ => true
  | Call.ofType _ => true
  | _ => false

/-- The clause a clause-adding call pushes, read off the corresponding
method body; a call that adds no clause maps to a dummy value and is only
ever mentioned under a `countsShould` / `countsMust` guard. -/
def Call.clauseOf : Call → Clause
  | Call.shouldPrefix k v => Clause.prefixC k v
  | Call.shouldTerm k v => Clause.termC k v
  | Call.shouldWildcard k v => Clause.wildcardC k ("*" ++ v ++ "*")
  | Call.shouldMatch k v => Clause.matchC k v
  | Call.mustPrefix k v => Clause.prefixC k v
  | Call.mustTerm k v => Clause.termC k v
  | Call.mustWildcard k v => Clause.wildcardC k ("*" ++ v ++ "*")
  | Call.mustMatch k v => Clause.matchC k v
  | Call.mustShouldMatch ts => Clause.boolShouldC (ts.map fun t => Clause.matchC t.1 t.2)
  | Call.ofType t => Clause.termC "type" t
  | Call.minimumShouldMatch _ => Clause.termC "" ""
  | Call.sort _ _ => Clause.termC "" ""
  | Call.size _ => Clause.termC "" ""
  | Call.fromCall _ => Clause.termC "" ""

/-- The one call that appends to `sort`. -/
def Call.isSort : Call → Bool
  | Call.sort _ _ => true
  | _ => false

/-- The one call that sets `minimum_should_match`. -/
def Call.isMinimumShouldMatch : Call → Bool
  | Call.minimumShouldMatch _ => true
  | _ => false

/-- The one call that sets `size`. -/
def Call.isSize : Call → Bool
  | Call.size _ => true
  | _ => false

/-- The one call that sets `from`. -/
def Call.isFrom : Call → Bool
  | Call.fromCall _ => true
  | _ => false

theorem applyCall_should (s : QueryObject) (c : Call) :
    (applyCall s c).query.bool.should
      = s.query.bool.should ++ (bif c.countsShould then [c.clauseOf] else []) := by
  cases c <;>
    simp [applyCall, shouldPrefix, shouldTerm, shouldWildcard, shouldMatch,
      mustPrefix, mustTerm, mustWildcard, mustMatch, mustShouldMatch, ofType,
      minimumShouldMatch, sort, size, from_, Call.countsShould, Call.clauseOf]

theorem applyCall_must (s : QueryObject) (c : Call) :
    (applyCall s c).query.bool.must
      = s.query.bool.must ++ (bif c.countsMust then [c.clauseOf] else []) := by
  cases c <;>
    simp [applyCall, shouldPrefix, shouldTerm, shouldWildcard, shouldMatch,
      mustPrefix, mustTerm, mustWildcard, mustMatch, mustShouldMatch, ofType,
      minimumShouldMatch, sort, size, from_, Call.countsMust, Call.clauseOf]

theorem run_should (calls : List Call) : ∀ s : QueryObject,
    (run s calls).query.bool.should
      = s.query.bool.should ++ (calls.filter Call.countsShould).map Call.clauseOf := by
  induction calls with
  | nil => intro s; simp [run]
  | cons c cs ih =>
      intro s
      have h1 : run s (c :: cs) = run (applyCall s c) cs := rfl
      rw [h1, ih]
      cases h : c.countsShould <;>
        simp [List.filter_cons, h, applyCall_should, List.append_assoc]

theorem run_must (calls : List Call) : ∀ s : QueryObject,
    (run s calls).query.bool.must
      = s.query.bool.must ++ (calls.filter Call.countsMust).map Call.clauseOf := by
  induction calls with
  | nil => intro s; simp [run]
  | cons c cs ih =>
      intro s
      have h1 : run s (c :: cs) = run (applyCall s c) cs := rfl
      rw [h1, ih]
      cases h : c.countsMust <;>
        simp [List.filter_cons, h, applyCall_must, List.append_assoc]

/-- C1: for every sequence of mutator calls on a builder constructed with
the default document, the final length of `query.bool.should` equals the
number of `should*` calls in the sequence and the final length of
`query.bool.must` equals the number of `must*`/`ofType`/`mustShouldMatch`
calls, each `mustShouldMatch` contributing exactly one element to `must`
whatever the length of its `terms` argument. -/
theorem qb_lengths_count_calls (calls : List Call) :
    (run (construct none) calls).query.bool.should.length
        = (calls.filter Call.countsShould).length
    ∧ (run (construct none) calls).query.bool.must.length
        = (calls.filter Call.countsMust).length := by
  constructor
  · rw [run_should]; simp [construct, defaultQueryObject]
  · rw [run_must]; simp [construct, defaultQueryObject]

/-- C2: for every sequence of clause-adding calls that all target the same
list (`should` or `must`), the resulting list is exactly the list of the
calls' clauses in call order — no reordering, no deduplication, no
removal; in particular a repeated identical call appends a duplicate
clause (see the witness). -/
theorem qb_order_preservation (calls : List Call) :
    ((∀ c ∈ calls, c.countsShould = true) →
      (run (construct none) calls).query.bool.should = calls.map Call.clauseOf)
    ∧ ((∀ c ∈ calls, c.countsMust = true) →
      (run (construct none) calls).query.bool.must = calls.map Call.clauseOf) := by
  constructor
  · intro h
    rw [run_should]
    simp [construct, defaultQueryObject, List.filter_eq_self.mpr h]
  · intro h
    rw [run_must]
    simp [construct, defaultQueryObject, List.filter_eq_self.mpr h]

/-- C2 witness: two identical `shouldTerm` calls yield two duplicate
clauses in call order, and an `ofType` call followed by a
`mustShouldMatch` call yields the two corresponding `must` clauses in
call order. -/
theorem qb_order_preservation_witness :
    (run (construct none)
        [Call.shouldTerm "a" "1", Call.shouldTerm "a" "1"]).query.bool.should
      = [Clause.termC "a" "1", Clause.termC "a" "1"]
    ∧ (run (construct none)
        [Call.ofType "user", Call.mustShouldMatch [("a", "1")]]).query.bool.must
      = [Clause.termC "type" "user", Clause.boolShouldC [Clause.matchC "a" "1"]] := by
  constructor
  · exact (qb_order_preservation
      [Call.shouldTerm "a" "1", Call.shouldTerm "a" "1"]).1 (by decide)
  · exact (qb_order_preservation
      [Call.ofType "user", Call.mustShouldMatch [("a", "1")]]).2 (by decide)

/-- C3: `shouldWildcard(k, v)` and `mustWildcard(k, v)` append a clause
whose stored value is exactly `"*" + v + "*"`; the wrapping is
unconditional, so the input value `"*x*"`, which already contains
asterisks, is stored as `"**x**"` with doubled asterisks. -/
theorem qb_wildcard_wrapping (s : QueryObject) (k v : String) :
    (shouldWildcard s k v).query.bool.should
        = s.query.bool.should ++ [Clause.wildcardC k ("*" ++ v ++ "*")]
    ∧ (mustWildcard s k v).query.bool.must
        = s.query.bool.must ++ [Clause.wildcardC k ("*" ++ v ++ "*")]
    ∧ (shouldWildcard s k "*x*").query.bool.should
        = s.query.bool.should ++ [Clause.wildcardC k "**x**"]
    ∧ (mustWildcard s k "*x*").query.bool.must
        = s.query.bool.must ++ [Clause.wildcardC k "**x**"] :=
  ⟨rfl, rfl, rfl, rfl⟩

/-- C4: `minimumShouldMatch`, `size` and `from` overwrite rather than
append: calling the same setter first with `a` and then with `b` yields
the very state that a single call with `b` yields, and the written field
then holds exactly `some b`; any integer is accepted, no bounds are
checked (the setters are total over `Int`). -/
theorem qb_overwrite_semantics (s : QueryObject) (a b : Int) :
    minimumShouldMatch (minimumShouldMatch s a) b = minimumShouldMatch s b
    ∧ size (size s a) b = size s b
    ∧ from_ (from_ s a) b = from_ s b
    ∧ (minimumShouldMatch s b).query.bool.minimum_should_match = some b
    ∧ (size s b).size = some b
    ∧ (from_ s b).from_ = some b :=
  ⟨rfl, rfl, rfl, rfl, rfl, rfl⟩

/-- C5: `sort(attribute)` with the direction omitted appends
`{attribute: {order: "desc"}}`, `sort(attribute, "asc")` appends an
ascending entry, and every `sort` call appends a new entry in call order —
for two different attributes both entries are preserved, and two calls
with the same attribute also yield two separate entries, never an
overwrite or a merge. -/
theorem qb_sort_append (s : QueryObject) (a1 a2 : String) (d1 d2 : SortDirection) :
    sort s a1 = { s with sort :=
        s.sort ++ [{ attr := a1, order := SortDirection.desc }] }
    ∧ sort s a1 SortDirection.asc = { s with sort :=
        s.sort ++ [{ attr := a1, order := SortDirection.asc }] }
    ∧ (sort (sort s a1 d1) a2 d2).sort
        = s.sort ++ [{ attr := a1, order := d1 }, { attr := a2, order := d2 }]
    ∧ (sort (sort s a1 d1) a1 d2).sort
        = s.sort ++ [{ attr := a1, order := d1 }, { attr := a1, order := d2 }] := by
  refine ⟨rfl, rfl, ?_, ?_⟩ <;> simp [sort]

/-- C6: `mustShouldMatch(terms)` appends exactly one element to `must`, of
shape `{bool: {should: [...]}}` with one `{match: {key: value}}` entry per
input pair in input order, and for the empty input the nested `should`
list is empty — no special-casing. -/
theorem qb_mustShouldMatch_single (s : QueryObject) (terms : List (String × String)) :
    (mustShouldMatch s terms).query.bool.must
        = s.query.bool.must
            ++ [Clause.boolShouldC (terms.map fun t => Clause.matchC t.1 t.2)]
    ∧ (mustShouldMatch s terms).query.bool.must.length
        = s.query.bool.must.length + 1
    ∧ (mustShouldMatch s []).query.bool.must
        = s.query.bool.must ++ [Clause.boolShouldC []] := by
  refine ⟨rfl, ?_, rfl⟩
  simp [mustShouldMatch]

/-- C7: the `toString` accessor serializes the document as it is at call
time — on the freshly constructed builder it returns exactly
`{"query":{"bool":{"should":[],"must":[]}},"sort":[]}` (braces written
`\x7b`/`\x7d`), and after a mutation it returns a different string, so the
text is not a cached snapshot. -/
theorem qb_toString_live_and_empty :
    toStringQB (construct none)
        = "\x7b\"query\":\x7b\"bool\":\x7b\"should\":[],\"must\":[]\x7d\x7d,\"sort\":[]\x7d"
    ∧ toStringQB (shouldMatch (construct none) "a" "b") ≠ toStringQB (construct none) := by
  constructor
  · rfl
  · decide

/-- C8: `build()` returns the builder's document itself — it is the
identity on the state, has no side effect and no error condition, and a
mutation applied after `build` is reflected through the value `build`
returned, the live-view behaviour of returning the document by
reference. -/
theorem qb_build_live_reference (s : QueryObject) (k v : String)
    (terms : List (String × String)) :
    build s = s
    ∧ build (mustMatch (build s) k v) = mustMatch s k v
    ∧ build (mustShouldMatch (build s) terms) = mustShouldMatch s terms :=
  ⟨rfl, rfl, rfl⟩

/-- C9: construction with a supplied pre-built document always succeeds
and validates nothing — it stores the document unchanged whatever its
shape — and a `should*` mutator succeeds exactly when the nested
structure `query.bool.should` is present, so a structural failure
surfaces only at the first mutator call that dereferences the missing
structure (third conjunct: a document with no `query` at all constructs
fine and fails at `shouldPrefix`). -/
theorem qb_construct_no_validation (d : RawDoc) (k v : String) :
    constructRaw (some d) = d
    ∧ isStructOk (shouldPrefixRaw d k v) = d.hasBoolShould
    ∧ isStructOk (shouldPrefixRaw (constructRaw (some
        { query := none, sort := none, size := none, from_ := none })) k v)
        = false := by
  refine ⟨rfl, ?_, rfl⟩
  cases d with
  | mk q srt sz fr =>
    cases q with
    | none => rfl
    | some q2 =>
      cases q2 with
      | mk b =>
        cases b with
        | none => rfl
        | some b2 =>
          cases b2 with
          | mk sh mu msm => cases sh <;> rfl

/-- C10: every mutator call changes only its designated field — a call
that is not a `should*` call leaves `query.bool.should` unchanged, one
that is not a `must`-adding call leaves `query.bool.must` unchanged, and
likewise for `sort`, `minimum_should_match`, `size` and `from`; a
`should*` call grows `should` by exactly one and a `must`-adding call
grows `must` by exactly one. -/
theorem qb_frame (s : QueryObject) (c : Call) :
    (c.countsShould = false →
        (applyCall s c).query.bool.should = s.query.bool.should)
    ∧ (c.countsMust = false →
        (applyCall s c).query.bool.must = s.query.bool.must)
    ∧ (c.isSort = false → (applyCall s c).sort = s.sort)
    ∧ (c.isMinimumShouldMatch = false →
        (applyCall s c).query.bool.minimum_should_match
          = s.query.bool.minimum_should_match)
    ∧ (c.isSize = false → (applyCall s c).size = s.size)
    ∧ (c.isFrom = false → (applyCall s c).from_ = s.from_)
    ∧ (c.countsShould = true →
        (applyCall s c).query.bool.should.length
          = s.query.bool.should.length + 1)
    ∧ (c.countsMust = true →
        (applyCall s c).query.bool.must.length
          = s.query.bool.must.length + 1) := by
  cases c <;>
    simp [applyCall, shouldPrefix, shouldTerm, shouldWildcard, shouldMatch,
      mustPrefix, mustTerm, mustWildcard, mustMatch, mustShouldMatch, ofType,
      minimumShouldMatch, sort, size, from_, Call.countsShould, Call.countsMust,
      Call.isSort, Call.isMinimumShouldMatch, Call.isSize, Call.isFrom]

/-- C10 witness: a `size` call leaves `should` unchanged, and a
`shouldTerm` call grows `should` by exactly one, both read off `qb_frame`
at concrete inputs. -/
theorem qb_frame_witness :
    (applyCall (construct none) (Call.size 5)).query.bool.should
        = (construct none).query.bool.should
    ∧ (applyCall (construct none) (Call.shouldTerm "a" "1")).query.bool.should.length
        = (construct none).query.bool.should.length + 1 :=
  ⟨(qb_frame (construct none) (Call.size 5)).1 rfl,
    (qb_frame (construct none) (Call.shouldTerm "a" "1")).2.2.2.2.2.2.1 rfl⟩
